import Mathlib

/-!
Shallow embedding of the service worker in src/sw.js: asset classification,
the three fetch strategies, the install/activate lifecycle handlers, and the
periodic eviction sweep, together with proofs of the claimed properties.

Modelling conventions:
  - A JS `Response` is modelled by its status, its `Content-Type` header (the
    only header the worker ever sets) and its body.  `Response.ok` is status
    in [200, 300), as in the Fetch standard.
  - A cache partition is an association list of (request URL, response)
    entries kept in insertion order, matching the Cache API, whose
    request/response list is append-ordered: `put` removes any entry with a
    matching key and appends the new one, and `keys()` returns keys in
    insertion order.
  - `caches.match` (global lookup) consults the partitions in creation
    order: the static partition, then the dynamic partition.
  - The network capability is an explicit outcome per request: `failure`
    (the fetch promise rejects) or `response r`.
  - Handlers return the produced response, the updated cache state and the
    number of `fetch` invocations, so that "never touches the network" is an
    observable fact about the model.
  - Storage operations used inside request handlers (`match`, `open`, `put`)
    are modelled as reliable; `cache.addAll` during install and
    `caches.delete` during activation take explicit failure oracles because
    the claims quantify over their failures.
-/

set_option maxRecDepth 40000

namespace SW

/-- JS `String.prototype.includes` on exploded strings: `containsSub needle
hay` is true when `needle` occurs as a contiguous run inside `hay`. -/
def containsSub (needle : List Char) : List Char → Bool
  | [] => needle.isEmpty
  | c :: rest => needle.isPrefixOf (c :: rest) || containsSub needle rest

/-- `strIncludes s pat` is JS `s.includes(pat)`. -/
def strIncludes (s pat : String) : Bool :=
  containsSub pat.toList s.toList

/-- `strEndsWith s post` is JS `s.endsWith(post)`: `post` is a suffix of
`s`. -/
def strEndsWith (s post : String) : Bool :=
  post.toList.isSuffixOf s.toList

/-- `const STATIC_CACHE = 'reader-static-v1.0.0'` (src/sw.js line 3). -/
def STATIC_CACHE : String := "reader-static-v1.0.0"

/-- `const DYNAMIC_CACHE = 'reader-dynamic-v1.0.0'` (src/sw.js line 4). -/
def DYNAMIC_CACHE : String := "reader-dynamic-v1.0.0"

/-- The `STATIC_ASSETS` manifest (src/sw.js lines 7-14). -/
def STATIC_ASSETS : List String :=
  ["./",
   "./index.html",
   "./manifest.json",
   "https://cdn.jsdelivr.net/npm/jszip@3.10.1/dist/jszip.min.js",
   "https://cdn.jsdelivr.net/npm/epubjs@0.3/dist/epub.min.js",
   "https://cdn.jsdelivr.net/npm/marked@12.0.2/marked.min.js"]

/-- A response: status, optional `Content-Type` header value, body text. -/
structure Response where
  status : Nat
  contentType : Option String
  body : String
  deriving DecidableEq, Repr

/-- `Response.ok` of the Fetch standard: status in the range [200, 300). -/
def Response.ok (r : Response) : Bool :=
  decide (200 ≤ r.status ∧ r.status < 300)

/-- One cache partition: (request key, response) entries in insertion order
(oldest first), keys unique. -/
abbrev Partition := List (String × Response)

/-- Partition-scoped `cache.match`: first entry whose key matches. -/
def lookupEntry (l : Partition) (k : String) : Option Response :=
  (l.find? (fun e => e.1 == k)).map (fun e => e.2)

/-- `cache.put`: the Cache API batch operation removes entries with a
matching key, then appends the new entry. -/
def putEntry (l : Partition) (k : String) (r : Response) : Partition :=
  l.filter (fun e => e.1 != k) ++ [(k, r)]

/-- The two partitions the worker uses. -/
structure CacheState where
  staticPart : Partition
  dynamicPart : Partition
  deriving DecidableEq, Repr

/-- `caches.match(request)`: global lookup across partitions in creation
order (static first, then dynamic). -/
def cachesMatch (s : CacheState) (k : String) : Option Response :=
  (lookupEntry s.staticPart k).orElse (fun _ => lookupEntry s.dynamicPart k)

/-- Store into the static partition (`caches.open(STATIC_CACHE)` + `put`). -/
def putStatic (s : CacheState) (k : String) (r : Response) : CacheState :=
  { s with staticPart := putEntry s.staticPart k r }

/-- Store into the dynamic partition (`caches.open(DYNAMIC_CACHE)` + `put`). -/
def putDynamic (s : CacheState) (k : String) (r : Response) : CacheState :=
  { s with dynamicPart := putEntry s.dynamicPart k r }

/-- Outcome of one `fetch(request)` call: rejection, or a response. -/
inductive NetworkResult where
  | failure
  | response (r : Response)
  deriving DecidableEq, Repr

/-- Whether the network attempt produced a usable (ok) response. -/
def netDelivered : NetworkResult → Bool
  | .failure => false
  | .response r => r.ok

/-- What a strategy handler produces: the response returned to the page, the
cache state afterwards, and how many times `fetch` was invoked. -/
structure HandlerResult where
  resp : Response
  cache : CacheState
  fetchCount : Nat
  deriving DecidableEq, Repr

/-- `isStaticAsset` (src/sw.js lines 97-103): some manifest entry is a
substring of the URL, or the URL mentions the CDN host, or it ends in
`.js` / `.css` / `.json`. -/
def isStaticAsset (url : String) : Bool :=
  STATIC_ASSETS.any (fun asset => strIncludes url asset) ||
  strIncludes url "cdn.jsdelivr.net" ||
  strEndsWith url ".js" ||
  strEndsWith url ".css" ||
  strEndsWith url ".json"

/-- `isEpubFile` (src/sw.js lines 106-108). -/
def isEpubFile (url : String) : Bool :=
  strEndsWith url ".epub" || strIncludes url ".epub"

/-- Which handler the fetch listener routes a handled request to. -/
inductive Handled where
  | staticAsset
  | epubFile
  | dynamicReq
  deriving DecidableEq, Repr

/-- The classification order of the fetch listener (src/sw.js lines 80-93):
`isStaticAsset` is tested first, then `isEpubFile`, else the dynamic
handler. -/
def classify (url : String) : Handled :=
  if isStaticAsset url then .staticAsset
  else if isEpubFile url then .epubFile
  else .dynamicReq

/-- The fetch listener's interception guards (src/sw.js lines 66-93):
non-GET requests, `chrome-extension:` URLs and the devtools host are not
intercepted (`none` = passthrough); otherwise the request is routed by
`classify`. -/
def fetchEvent (method protocol hostname url : String) : Option Handled :=
  if method != "GET" then none
  else if protocol == "chrome-extension:" ||
          hostname == "chrome-devtools-frontend.appspot.com" then none
  else some (classify url)

/-- Body of the synthetic 503 response of `handleStaticAsset`
(src/sw.js line 126); the source's Chinese text for
"offline mode - resource unavailable". -/
def staticFailBody : String := "离线模式 - 无法加载资源"

/-- `new Response('离线模式 - 无法加载资源', { status: 503 })`. -/
def resp503 : Response := { status := 503, contentType := none, body := staticFailBody }

/-- `new Response('EPUB文件不可用', { status: 404 })` (src/sw.js line 151);
the source's Chinese text for "EPUB file unavailable". -/
def epub404 : Response := { status := 404, contentType := none, body := "EPUB文件不可用" }

/-- The offline page template literal of `handleDynamicRequest`
(src/sw.js lines 176-227), reproduced verbatim. -/
def offlineHtml : String :=
  "\n    <!DOCTYPE html>\n    <html lang=\"zh-CN\">\n    <head>\n      <meta charset=\"utf-8\">\n" ++
  "      <meta name=\"viewport\" content=\"width=device-width, initial-scale=1\">\n      <title>离线 - 极简电子书阅读器</title>\n      <style>\n" ++
  "        body \x7b\n          font-family: -apple-system, BlinkMacSystemFont, \x27Segoe UI\x27, Roboto, sans-serif;\n          display: flex;\n          flex-direction: column;\n          align-items: center;\n          justify-content: center;\n          min-height: 100vh;\n          margin: 0;\n          background: #f5f5f5;\n          color: #333;\n        \x7d\n" ++
  "        .container \x7b\n          text-align: center;\n          padding: 2rem;\n          background: white;\n          border-radius: 12px;\n          box-shadow: 0 4px 12px rgba(0,0,0,0.1);\n          max-width: 400px;\n        \x7d\n" ++
  "        h1 \x7b color: #1f6eeb; margin-bottom: 1rem; \x7d\n        p \x7b margin-bottom: 1rem; color: #666; \x7d\n" ++
  "        button \x7b\n          background: #1f6eeb;\n          color: white;\n          border: none;\n          padding: 12px 24px;\n          border-radius: 8px;\n          font-size: 16px;\n          cursor: pointer;\n          transition: background 0.2s;\n        \x7d\n        button:hover \x7b background: #0056cc; \x7d\n" ++
  "      </style>\n    </head>\n    <body>\n      <div class=\"container\">\n        <h1>📚 离线模式</h1>\n" ++
  "        <p>当前处于离线状态，无法加载新内容。</p>\n        <p>您可以继续阅读已缓存的书籍。</p>\n" ++
  "        <button onclick=\"location.reload()\">重新连接</button>\n      </div>\n    </body>\n    </html>\n  "

/-- Marker text unique to the offline page ("currently offline"). -/
def offlineMarker : String := "当前处于离线状态"

/-- The offline-page response: status defaults to 200 in the Response
constructor; the `Content-Type` header is set explicitly (src/sw.js
lines 227-229). -/
def offlineResp : Response :=
  { status := 200, contentType := some "text/html; charset=utf-8", body := offlineHtml }

/-- `handleStaticAsset` (src/sw.js lines 111-128): cache-first.  A global
cache hit is returned with no fetch; on a miss the network is consulted, an
ok response is stored into the static partition and returned, a non-2xx
response is returned uncached, and a rejected fetch yields the synthetic
503 response. -/
def handleStaticAsset (net : NetworkResult) (s : CacheState) (url : String) : HandlerResult :=
  match cachesMatch s url with
  | some cached => ⟨cached, s, 0⟩
  | none =>
    match net with
    | .response r => if r.ok then ⟨r, putStatic s url r, 1⟩ else ⟨r, s, 1⟩
    | .failure => ⟨resp503, s, 1⟩

/-- `handleEpubFile` (src/sw.js lines 131-152): network-first.  An ok
network response is stored into the dynamic partition and returned; on a
rejected fetch or a non-2xx response the handler falls back to a global
cache lookup, and finally to the synthetic 404 response. -/
def handleEpubFile (net : NetworkResult) (s : CacheState) (url : String) : HandlerResult :=
  match net with
  | .response r =>
    if r.ok then ⟨r, putDynamic s url r, 1⟩
    else
      match cachesMatch s url with
      | some cached => ⟨cached, s, 1⟩
      | none => ⟨epub404, s, 1⟩
  | .failure =>
    match cachesMatch s url with
    | some cached => ⟨cached, s, 1⟩
    | none => ⟨epub404, s, 1⟩

/-- `handleDynamicRequest` (src/sw.js lines 155-230): identical to
`handleEpubFile` except that the final fallback is the offline page. -/
def handleDynamicRequest (net : NetworkResult) (s : CacheState) (url : String) : HandlerResult :=
  match net with
  | .response r =>
    if r.ok then ⟨r, putDynamic s url r, 1⟩
    else
      match cachesMatch s url with
      | some cached => ⟨cached, s, 1⟩
      | none => ⟨offlineResp, s, 1⟩
  | .failure =>
    match cachesMatch s url with
    | some cached => ⟨cached, s, 1⟩
    | none => ⟨offlineResp, s, 1⟩

/-- Whether fetching asset `a` during install fails: the fetch rejects
(`none`) or yields a non-ok response (`cache.addAll` rejects on either). -/
def assetFails (oracle : String → Option Response) (a : String) : Bool :=
  match oracle a with
  | some r => !r.ok
  | none => true

/-- `cache.addAll(assets)`: fetches every asset and commits all entries as
one atomic batch; if any fetch fails or yields a non-ok response the whole
operation rejects and nothing is committed. -/
def addAll (oracle : String → Option Response) : List String → Option Partition
  | [] => some []
  | a :: rest =>
    match oracle a with
    | some r =>
      if r.ok then (addAll oracle rest).map (fun es => (a, r) :: es)
      else none
    | none => none

/-- Outcome of the install event handler. -/
structure InstallResult where
  staticPart : Partition
  skipWaitingCalled : Bool
  installFailed : Bool
  deriving DecidableEq, Repr

/-- The install listener (src/sw.js lines 17-33): `waitUntil` of
`caches.open(STATIC_CACHE)` then `cache.addAll(STATIC_ASSETS)` then
`skipWaiting()`, with a final `.catch` that logs the error.  Because the
`.catch` turns a rejection into fulfilment, the promise handed to
`waitUntil` never rejects: `installFailed` is false on every path, and on
the failure path `skipWaiting` is skipped and no entries are committed. -/
def installEvent (oracle : String → Option Response) : InstallResult :=
  match addAll oracle STATIC_ASSETS with
  | some entries => ⟨entries, true, false⟩
  | none => ⟨[], false, false⟩

/-- `caches.delete(name)`: removes the partition with that name. -/
def cachesDelete (state : List String) (name : String) : List String :=
  state.filter (fun n => n != name)

/-- One iteration of the activate handler's map (src/sw.js lines 42-47):
a name equal to neither current tag is deleted, provided that deletion
succeeds (`delOk`); other names are left alone. -/
def activateStep (delOk : String → Bool) (st : List String) (name : String) : List String :=
  if name != STATIC_CACHE && name != DYNAMIC_CACHE then
    if delOk name then cachesDelete st name else st
  else st

/-- The activate listener (src/sw.js lines 36-55): takes the snapshot
`caches.keys()` and issues one independent delete per stale name; each
delete takes effect regardless of whether the others fail. -/
def activateEvent (delOk : String → Bool) (state : List String) : List String :=
  state.foldl (activateStep delOk) state

/-- `cache.delete(request)` in the eviction sweep, on the partition's key
list. -/
def cacheDeleteKey (ks : List String) (k : String) : List String :=
  ks.filter (fun x => x != k)

/-- `cleanupExpiredCache` (src/sw.js lines 233-252), acting on the dynamic
partition's key list as returned by `cache.keys()` (insertion order, oldest
first).  The source sorts with a comparator that always returns 0; JS
`Array.prototype.sort` is stable, so this sort is the identity, and the
slice `[0, length - 100)` that is deleted is the oldest excess keys. -/
def cleanupExpiredCache (requests : List String) : List String :=
  if requests.length > 100 then
    let sortedRequests := requests
    let toDelete := sortedRequests.take (requests.length - 100)
    toDelete.foldl cacheDeleteKey requests
  else requests

/-! ## Helper lemmas -/

/-- Filtering away a key that does not occur leaves the list unchanged. -/
theorem filterNe_of_not_mem {a : String} {t : List String} (ha : a ∉ t) :
    t.filter (fun x => x != a) = t := by
  apply List.filter_eq_self.mpr
  intro x hx
  simp only [bne_iff_ne, ne_eq]
  exact fun hxa => ha (hxa ▸ hx)

/-- Deleting, one by one, the first `k` keys of a duplicate-free key list
drops exactly its first `k` elements. -/
theorem foldlDelete_take :
    ∀ (k : Nat) (l : List String), l.Nodup → k ≤ l.length →
      (l.take k).foldl cacheDeleteKey l = l.drop k := by
  intro k
  induction k with
  | zero => intro l _ _; simp
  | succ k ih =>
    intro l hnd hk
    match l with
    | [] => simp at hk
    | a :: t =>
      have ha : a ∉ t := (List.nodup_cons.mp hnd).1
      have ht : t.Nodup := (List.nodup_cons.mp hnd).2
      have hD : cacheDeleteKey (a :: t) a = t := by
        simp only [cacheDeleteKey, List.filter_cons, bne_self_eq_false,
          Bool.false_eq_true, if_neg, reduceIte]
        exact filterNe_of_not_mem ha
      simp only [List.take_succ_cons, List.foldl_cons, List.drop_succ_cons, hD]
      exact ih t ht (Nat.le_of_succ_le_succ hk)

/-! ## C1: eviction sweep -/

/-- Claim C1: for every dynamic partition holding more than 100 entries with
distinct insertion times, one run of the eviction sweep leaves exactly 100
entries, and those remaining are the 100 most-recently-inserted ones.  The
key list is in insertion order (oldest first), so `drop (length - 100)` is
exactly the 100 most-recently-inserted keys, and the deleted prefix is the
least-recently-inserted excess. -/
theorem C1_evictionSweep (requests : List String) (hnd : requests.Nodup)
    (hlen : 100 < requests.length) :
    (cleanupExpiredCache requests).length = 100 ∧
    cleanupExpiredCache requests = requests.drop (requests.length - 100) := by
  have hgt : requests.length > 100 := hlen
  have h1 : cleanupExpiredCache requests = requests.drop (requests.length - 100) := by
    unfold cleanupExpiredCache
    rw [if_pos hgt]
    exact foldlDelete_take _ _ hnd (Nat.sub_le _ _)
  refine ⟨?_, h1⟩
  rw [h1, List.length_drop]
  omega

/-- Concrete dynamic-partition key list: 101 pairwise distinct keys. -/
def evictionWitnessKeys : List String :=
  (List.range 101).map (fun i => "k" ++ toString i)

/-- Witness for C1 at a concrete 101-entry partition. -/
theorem C1_evictionSweep_witness :
    (cleanupExpiredCache evictionWitnessKeys).length = 100 ∧
    cleanupExpiredCache evictionWitnessKeys =
      evictionWitnessKeys.drop (evictionWitnessKeys.length - 100) :=
  C1_evictionSweep evictionWitnessKeys (by decide) (by decide)

/-! ## C2: install failure handling -/

/-- If any asset in the list fails, the atomic `addAll` rejects. -/
theorem addAll_eq_none {oracle : String → Option Response} :
    ∀ {assets : List String}, (∃ a ∈ assets, assetFails oracle a = true) →
      addAll oracle assets = none := by
  intro assets
  induction assets with
  | nil =>
    rintro ⟨a, ha, -⟩
    exact absurd ha (List.not_mem_nil a)
  | cons b rest ih =>
    rintro ⟨a, ha, hf⟩
    rcases List.mem_cons.mp ha with rfl | hmem
    · unfold assetFails at hf
      unfold addAll
      cases hb : oracle a with
      | none => rfl
      | some r =>
        rw [hb] at hf
        simp only [Bool.not_eq_eq_eq_not, Bool.not_true] at hf
        simp [hf]
    · unfold addAll
      cases hb : oracle b with
      | none => rfl
      | some r =>
        by_cases hok : r.ok = true
        · simp [hok, ih ⟨a, hmem, hf⟩]
        · simp [hok]

/-- Claim C2 counterexample: with every asset fetch failing, the install
step does NOT fail — the trailing `.catch` logs the error and fulfils the
promise handed to `waitUntil`, so the failure is not surfaced as an
installation failure (refuting the claim as stated). -/
theorem C2_installFailure_counterexample :
    assetFails (fun _ => none) "./" = true ∧
    (installEvent (fun _ => none)).installFailed = false :=
  ⟨rfl, rfl⟩

/-- Claim C2 as amended: if fetching or storing any single asset fails
during install, no partial static cache is committed (the bulk insert is
atomic) and skip-waiting is not invoked, but the error is caught and
logged, so the install step completes without surfacing an installation
failure. -/
theorem C2_installFailure_amended (oracle : String → Option Response)
    (h : ∃ a ∈ STATIC_ASSETS, assetFails oracle a = true) :
    (installEvent oracle).staticPart = [] ∧
    (installEvent oracle).skipWaitingCalled = false ∧
    (installEvent oracle).installFailed = false := by
  have hnone : addAll oracle STATIC_ASSETS = none := addAll_eq_none h
  simp [installEvent, hnone]

/-- Witness for the amended C2 at the all-failing network. -/
theorem C2_installFailure_amended_witness :
    (installEvent (fun _ => none)).staticPart = [] ∧
    (installEvent (fun _ => none)).skipWaitingCalled = false ∧
    (installEvent (fun _ => none)).installFailed = false :=
  C2_installFailure_amended (fun _ => none) ⟨"./", by decide, rfl⟩

/-! ## C3: cache-first never fetches on a hit -/

/-- Claim C3: for every static-classified request whose key is already
present in the cache, the cache-first strategy returns the cached entry,
leaves the cache unchanged, and performs zero fetch calls. -/
theorem C3_cacheFirstNoFetch (net : NetworkResult) (s : CacheState) (url : String)
    (r : Response) (_hcls : isStaticAsset url = true)
    (h : cachesMatch s url = some r) :
    handleStaticAsset net s url = ⟨r, s, 0⟩ := by
  simp [handleStaticAsset, h]

/-- A concrete already-cached stylesheet response. -/
def cssResp : Response := { status := 200, contentType := some "text/css", body := "ok" }

/-- A concrete cache state with one static entry. -/
def cssState : CacheState :=
  { staticPart := [("https://example.com/app.css", cssResp)], dynamicPart := [] }

/-- Witness for C3: a repeated request for the cached stylesheet is served
from the cache with zero fetch calls even though the network would fail. -/
theorem C3_cacheFirstNoFetch_witness :
    handleStaticAsset .failure cssState "https://example.com/app.css" =
      ⟨cssResp, cssState, 0⟩ :=
  C3_cacheFirstNoFetch .failure cssState "https://example.com/app.css" cssResp
    (by decide) (by decide)

/-! ## C4: document strategy fallback -/

/-- Claim C4: for a document-classified request whose network fetch always
fails, the strategy returns the cached entry when one exists for that key,
and otherwise the synthetic response with status 404. -/
theorem C4_documentFallback (s : CacheState) (url : String) :
    (handleEpubFile .failure s url).resp = (cachesMatch s url).getD epub404 ∧
    epub404.status = 404 := by
  refine ⟨?_, rfl⟩
  cases h : cachesMatch s url <;> simp [handleEpubFile, h]

/-! ## C5: offline page fallback -/

/-- Claim C5: for an "other"-classified request where the network fails and
no cache entry exists, the returned response is the offline page: status
200, `Content-Type: text/html; charset=utf-8`, a self-contained HTML body
containing the offline marker; and the fallbacks of the other two
strategies are different responses, so the offline page is served only from
this strategy. -/
theorem C5_offlinePageFallback (s : CacheState) (url : String)
    (h : cachesMatch s url = none) :
    (handleDynamicRequest .failure s url).resp = offlineResp ∧
    offlineResp.status = 200 ∧
    offlineResp.contentType = some "text/html; charset=utf-8" ∧
    strIncludes offlineResp.body offlineMarker = true ∧
    strIncludes offlineResp.body "<!DOCTYPE html>" = true ∧
    (handleStaticAsset .failure s url).resp = resp503 ∧ resp503 ≠ offlineResp ∧
    (handleEpubFile .failure s url).resp = epub404 ∧ epub404 ≠ offlineResp := by
  refine ⟨by simp [handleDynamicRequest, h], rfl, rfl, by decide, by decide,
    by simp [handleStaticAsset, h], by decide, by simp [handleEpubFile, h], by decide⟩

/-- Witness for C5 at the empty cache and a plain page URL. -/
theorem C5_offlinePageFallback_witness :
    (handleDynamicRequest .failure { staticPart := [], dynamicPart := [] }
      "https://example.com/page").resp = offlineResp :=
  (C5_offlinePageFallback { staticPart := [], dynamicPart := [] }
    "https://example.com/page" (by decide)).1

/-! ## C6: non-2xx responses are never cached -/

/-- Claim C6: in every strategy, a network response with a status outside
2xx is never stored: the cache state after handling equals the cache state
before. -/
theorem C6_nonSuccessNeverCached (s : CacheState) (url : String) (r : Response)
    (h : r.ok = false) :
    (handleStaticAsset (.response r) s url).cache = s ∧
    (handleEpubFile (.response r) s url).cache = s ∧
    (handleDynamicRequest (.response r) s url).cache = s := by
  cases hm : cachesMatch s url <;>
    simp [handleStaticAsset, handleEpubFile, handleDynamicRequest, hm, h]

/-- Witness for C6 at a concrete 500 response and the empty cache. -/
theorem C6_nonSuccessNeverCached_witness :
    (handleStaticAsset (.response ⟨500, none, "err"⟩)
      { staticPart := [], dynamicPart := [] } "https://example.com/x").cache =
      { staticPart := [], dynamicPart := [] } ∧
    (handleEpubFile (.response ⟨500, none, "err"⟩)
      { staticPart := [], dynamicPart := [] } "https://example.com/x").cache =
      { staticPart := [], dynamicPart := [] } ∧
    (handleDynamicRequest (.response ⟨500, none, "err"⟩)
      { staticPart := [], dynamicPart := [] } "https://example.com/x").cache =
      { staticPart := [], dynamicPart := [] } :=
  C6_nonSuccessNeverCached { staticPart := [], dynamicPart := [] }
    "https://example.com/x" ⟨500, none, "err"⟩ (by decide)

/-! ## C7: static strategy synthetic 503 -/

/-- Claim C7: for a static-classified request missing from the cache whose
network fetch fails, the cache-first strategy returns the synthetic 503
response whose body is the source's text for "offline mode - resource
unavailable". -/
theorem C7_static503 (s : CacheState) (url : String)
    (_hcls : isStaticAsset url = true) (h : cachesMatch s url = none) :
    handleStaticAsset .failure s url = ⟨resp503, s, 1⟩ ∧
    resp503.status = 503 ∧ resp503.body = staticFailBody :=
  ⟨by simp [handleStaticAsset, h], rfl, rfl⟩

/-- Witness for C7 at the empty cache and a script URL. -/
theorem C7_static503_witness :
    handleStaticAsset .failure { staticPart := [], dynamicPart := [] }
      "https://example.com/app.js" =
      ⟨resp503, { staticPart := [], dynamicPart := [] }, 1⟩ :=
  (C7_static503 { staticPart := [], dynamicPart := [] } "https://example.com/app.js"
    (by decide) (by decide)).1

/-! ## C8: classification of .epub requests -/

/-- Claim C8 counterexample: a GET request for an `.epub` file hosted on the
trusted CDN also satisfies `isStaticAsset`, and the fetch listener tests
`isStaticAsset` first, so the request is handled by the static (cache-first)
strategy, not the document strategy — refuting the claim as stated. -/
theorem C8_epubClassification_counterexample :
    isEpubFile "https://cdn.jsdelivr.net/npm/book.epub" = true ∧
    fetchEvent "GET" "https:" "cdn.jsdelivr.net"
      "https://cdn.jsdelivr.net/npm/book.epub" = some Handled.staticAsset :=
  ⟨by decide, by decide⟩

/-- Claim C8 as amended: every intercepted GET request whose URL ends in
`.epub` or contains `.epub`, and which is not also classified static
(static classification takes precedence in the dispatch), is handled by the
document strategy. -/
theorem C8_epubClassification_amended (method protocol hostname url : String)
    (hm : method = "GET") (hp : protocol ≠ "chrome-extension:")
    (hh : hostname ≠ "chrome-devtools-frontend.appspot.com")
    (he : isEpubFile url = true) (hs : isStaticAsset url = false) :
    fetchEvent method protocol hostname url = some Handled.epubFile := by
  subst hm
  have hp' : (protocol == "chrome-extension:") = false := by
    simpa using hp
  have hh' : (hostname == "chrome-devtools-frontend.appspot.com") = false := by
    simpa using hh
  simp [fetchEvent, classify, hp', hh', he, hs]

/-- Witness for the amended C8 at a concrete non-static `.epub` URL. -/
theorem C8_epubClassification_amended_witness :
    fetchEvent "GET" "https:" "example.com"
      "https://example.com/books/novel.epub" = some Handled.epubFile :=
  C8_epubClassification_amended "GET" "https:" "example.com"
    "https://example.com/books/novel.epub" rfl (by decide) (by decide)
    (by decide) (by decide)

/-! ## C9: activation cleanup -/

/-- A name the activate handler will try to delete: stale (neither current
tag) and its deletion succeeds. -/
def staleOk (delOk : String → Bool) (n : String) : Bool :=
  (n != STATIC_CACHE && n != DYNAMIC_CACHE) && delOk n

/-- The activate step is a guarded delete. -/
theorem activateStep_eq (delOk : String → Bool) (st : List String) (name : String) :
    activateStep delOk st name =
      if staleOk delOk name then cachesDelete st name else st := by
  unfold activateStep staleOk
  cases h1 : (name != STATIC_CACHE && name != DYNAMIC_CACHE) <;>
    cases h2 : delOk name <;> simp [h1, h2]

/-- Folding guarded deletes over an iteration list removes exactly the
elements satisfying the guard that occur in the iteration list. -/
theorem foldl_guardDelete (P : String → Bool) :
    ∀ (it st : List String),
      it.foldl (fun acc name => if P name then cachesDelete acc name else acc) st =
        st.filter (fun n => !(P n && it.contains n)) := by
  intro it
  induction it with
  | nil => intro st; simp
  | cons a it ih =>
    intro st
    simp only [List.foldl_cons]
    rw [ih]
    cases hPa : P a with
    | false =>
      rw [if_neg (by simp)]
      apply List.filter_congr
      intro x _
      cases hxa : x == a with
      | false =>
        have hne : x ≠ a := by simpa using hxa
        simp [List.contains_cons, hxa, hne]
      | true =>
        have hxe : x = a := eq_of_beq hxa
        subst hxe
        simp [List.contains_cons, hPa]
    | true =>
      rw [if_pos rfl]
      unfold cachesDelete
      rw [List.filter_filter]
      apply List.filter_congr
      intro x _
      cases hxa : x == a with
      | true =>
        have hxe : x = a := eq_of_beq hxa
        subst hxe
        simp [List.contains_cons, hPa, bne]
      | false =>
        have hne : x ≠ a := by simpa using hxa
        simp [List.contains_cons, hxa, bne, hne]

/-- The activate handler deletes exactly the stale names whose deletion
succeeds. -/
theorem activateEvent_chr (delOk : String → Bool) (state : List String) :
    activateEvent delOk state =
      state.filter (fun n => !(staleOk delOk n && state.contains n)) := by
  unfold activateEvent
  have hfun : activateStep delOk =
      (fun acc name => if staleOk delOk name then cachesDelete acc name else acc) := by
    funext st name
    exact activateStep_eq delOk st name
  rw [hfun]
  exact foldl_guardDelete (staleOk delOk) state state

/-- Claim C9: when the deletions succeed, after activation only the
partitions named by the current static and dynamic version tags remain; and
the deletions are independent, so any stale partition whose own deletion
succeeds is removed regardless of failures on other partitions. -/
theorem C9_activationCleanup (delOk : String → Bool) (state : List String) :
    ((∀ n, delOk n = true) →
      activateEvent delOk state =
        state.filter (fun n => n == STATIC_CACHE || n == DYNAMIC_CACHE)) ∧
    (∀ n, n ∈ state → n ≠ STATIC_CACHE → n ≠ DYNAMIC_CACHE → delOk n = true →
      n ∉ activateEvent delOk state) := by
  constructor
  · intro hall
    rw [activateEvent_chr]
    apply List.filter_congr
    intro x hx
    simp [staleOk, hall x, hx, bne, Bool.not_and, Bool.not_not]
  · intro n hn hS hD hok hmem
    rw [activateEvent_chr] at hmem
    have hpred := (List.mem_filter.mp hmem).2
    simp [staleOk, hok, hS, hD, hn, bne] at hpred

/-- Witness for C9 on the spec's example partition set: with all deletions
succeeding only the current tags remain, and with the deletion of
"leftover" failing the stale "reader-static-v0" is still removed. -/
theorem C9_activationCleanup_witness :
    activateEvent (fun _ => true)
      [STATIC_CACHE, DYNAMIC_CACHE, "reader-static-v0", "leftover"] =
      [STATIC_CACHE, DYNAMIC_CACHE] ∧
    "reader-static-v0" ∉ activateEvent (fun n => n != "leftover")
      [STATIC_CACHE, DYNAMIC_CACHE, "reader-static-v0", "leftover"] := by
  constructor
  · have h := (C9_activationCleanup (fun _ => true)
      [STATIC_CACHE, DYNAMIC_CACHE, "reader-static-v0", "leftover"]).1 (fun _ => rfl)
    rw [h]
    decide
  · exact (C9_activationCleanup (fun n => n != "leftover")
      [STATIC_CACHE, DYNAMIC_CACHE, "reader-static-v0", "leftover"]).2
      "reader-static-v0" (by decide) (by decide) (by decide) (by decide)

/-! ## C10: document and dynamic strategies agree except on the fallback -/

/-- Claim C10: on the same request, cache state and network outcome, the
document strategy and the "other" strategy perform the same fetches, leave
the same cache state, and return the same response, except when the network
yields no usable response and the cache misses, where the document strategy
returns the synthetic 404 and the other strategy returns the offline
page. -/
theorem C10_strategiesAgree (net : NetworkResult) (s : CacheState) (url : String) :
    (handleEpubFile net s url).cache = (handleDynamicRequest net s url).cache ∧
    (handleEpubFile net s url).fetchCount = (handleDynamicRequest net s url).fetchCount ∧
    (netDelivered net = true ∨ (cachesMatch s url).isSome = true →
      (handleEpubFile net s url).resp = (handleDynamicRequest net s url).resp) ∧
    (netDelivered net = false → cachesMatch s url = none →
      (handleEpubFile net s url).resp = epub404 ∧
      (handleDynamicRequest net s url).resp = offlineResp) := by
  cases net with
  | failure =>
    cases hm : cachesMatch s url <;>
      simp [handleEpubFile, handleDynamicRequest, netDelivered, hm]
  | response r =>
    cases hok : r.ok <;> cases hm : cachesMatch s url <;>
      simp [handleEpubFile, handleDynamicRequest, netDelivered, hok, hm]

/-- Witness for C10 at a failing network and the empty cache: the two
strategies produce their respective fallbacks. -/
theorem C10_strategiesAgree_witness :
    (handleEpubFile .failure { staticPart := [], dynamicPart := [] }
      "https://example.com/reader/book.epub").resp = epub404 ∧
    (handleDynamicRequest .failure { staticPart := [], dynamicPart := [] }
      "https://example.com/reader/book.epub").resp = offlineResp :=
  (C10_strategiesAgree .failure { staticPart := [], dynamicPart := [] }
    "https://example.com/reader/book.epub").2.2.2 (by decide) (by decide)

end SW
